import Mathlib

set_option autoImplicit false

/-!
Shallow embedding of the GraphQL book/author catalog server (src/index.js).

Mongoose documents become Lean structures with `Nat` object ids; the document
store is a triple of lists; the `PubSub` channel is an event log carried in the
server state; `jwt.sign`/`jwt.verify` stay abstract (a signed token is its
payload, verification is a parameter that may throw); the mongoose
`validateSync` functions of the Book and Author models live outside src/ and
are kept abstract as parameters.  Thrown `AuthenticationError` /
`UserInputError` / `TypeError` values become an `Except` error type, and each
mutation returns the state after the call (unchanged when it throws).
-/

namespace GraphqlLibrary

/-- An Author document: name, `_id`, optional birth year, owned book ids. -/
structure Author where
  name : String
  id : Nat
  born : Option Int
  books : List Nat
  deriving Repr, DecidableEq

/-- A Book document; `author` is the referenced Author `_id`. -/
structure Book where
  title : String
  published : Int
  author : Nat
  id : Nat
  genres : List String
  deriving Repr, DecidableEq

/-- A User document. -/
structure User where
  username : String
  favoriteGenre : String
  id : Nat
  deriving Repr, DecidableEq

/-- The document store contents. -/
structure DB where
  books : List Book
  authors : List Author
  users : List User
  deriving Repr, DecidableEq

/-- The payload `login` signs: `{ username: user.username, id: user._id }`.
`jwt.sign` with the fixed server secret is an injective encoding, so a signed
token is modelled as its payload. -/
structure SignedToken where
  username : String
  id : Nat
  deriving Repr, DecidableEq

/-- The `Token` GraphQL type: `{ value: <signed token> }`. -/
structure Token where
  value : SignedToken
  deriving Repr, DecidableEq

/-- Arguments of `Mutation.addBook`. -/
structure AddBookArgs where
  title : String
  author : String
  published : Int
  genres : List String
  deriving Repr, DecidableEq

/-- Arguments of `Mutation.editAuthor`. -/
structure EditAuthorArgs where
  name : String
  setBornTo : Int
  deriving Repr, DecidableEq

/-- The `invalidArgs` payload a `UserInputError` may carry. -/
inductive InvalidArgs where
  | addBook (args : AddBookArgs)
  | editAuthor (args : EditAuthorArgs)
  deriving Repr, DecidableEq

/-- Errors a resolver can throw: `AuthenticationError`, `UserInputError`
(optionally carrying `invalidArgs`), or a plain JavaScript `TypeError`. -/
inductive GqlError where
  | authenticationError (msg : String)
  | userInputError (msg : String) (invalidArgs : Option InvalidArgs)
  | typeError (msg : String)
  deriving Repr, DecidableEq

/-- A JavaScript value as produced by the count resolvers: enough to tell a
number apart from an (unapplied) function object. -/
inductive JsValue where
  | num (n : Nat)
  | fn (name : String)
  deriving Repr, DecidableEq

/-- `Author.findOne({ name })`: first stored author with that name. -/
def findOneAuthor (authors : List Author) (name : String) : Option Author :=
  authors.find? (fun a => a.name == name)

/-- `User.findOne({ username })`. -/
def findOneUser (users : List User) (username : String) : Option User :=
  users.find? (fun u => u.username == username)

/-- `Author.findById` / what `populate("author")` fetches. -/
def findAuthorById (authors : List Author) (i : Nat) : Option Author :=
  authors.find? (fun a => a.id == i)

/-- `User.findById`. -/
def findUserById (users : List User) (i : Nat) : Option User :=
  users.find? (fun u => u.id == i)

/-- JavaScript truthiness of an optional string argument: `undefined`, `null`
and the empty string are falsy (`if (args.author)`, `if (args.genre)`). -/
def truthyStr : Option String → Bool
  | none => false
  | some s => s != ""

/-- `Query.bookCount` (src/index.js line 68): the resolver body is
`Book.collection.countDocuments` — the function itself, never invoked. -/
def bookCount (_db : DB) : JsValue :=
  JsValue.fn "countDocuments"

/-- `Query.authorCount` (line 78): likewise returns
`Author.collection.countDocuments` without invoking it. -/
def authorCount (_db : DB) : JsValue :=
  JsValue.fn "countDocuments"

/-- What invoking `Book.collection.countDocuments()` would produce. -/
def booksCountInvoked (db : DB) : JsValue :=
  JsValue.num db.books.length

/-- What invoking `Author.collection.countDocuments()` would produce. -/
def authorsCountInvoked (db : DB) : JsValue :=
  JsValue.num db.authors.length

/-- The mongo filter object built by `Query.allBooks`: an optional author
`_id` filter and an optional scalar handed to `$in` on `genres`. -/
structure Filters where
  author : Option Nat
  genres : Option String
  deriving Repr, DecidableEq

/-- The empty filter object `{}`. -/
def emptyFilters : Filters := ⟨none, none⟩

/-- Modelled from the spec: the document store's matching predicate for the
filters `allBooks` builds.  The store itself (mongoose/MongoDB) is an external
collaborator outside src/; per spec section 4.2 the query is an "optional
filter by author name (resolved to an identity reference first) and/or genre
membership", so the genre `$in` filter is genre-list membership. -/
def bookMatches (f : Filters) (b : Book) : Bool :=
  (match f.author with
   | none => true
   | some aid => b.author == aid) &&
  (match f.genres with
   | none => true
   | some g => b.genres.contains g)

/-- A Book after `populate("author")`: the author reference resolved to the
stored Author record, or `none` (mongoose `null`) when dangling. -/
structure PopulatedBook where
  title : String
  published : Int
  author : Option Author
  id : Nat
  genres : List String
  deriving Repr, DecidableEq

/-- `populate("author")` on one book. -/
def populateBook (db : DB) (b : Book) : PopulatedBook :=
  ⟨b.title, b.published, findAuthorById db.authors b.author, b.id, b.genres⟩

/-- `Query.allBooks` (lines 69-77).  A truthy `args.author` triggers
`Author.findOne` whose `null` result is dereferenced (`author._id`) — a
thrown TypeError; a truthy `args.genre` adds the genre filter; the matching
books are returned with their author populated. -/
def allBooks (db : DB) (authorArg genreArg : Option String) :
    Except GqlError (List PopulatedBook) :=
  match (if truthyStr authorArg then
           match findOneAuthor db.authors (authorArg.getD "") with
           | some a => Except.ok (⟨some a.id, none⟩ : Filters)
           | none =>
             Except.error (GqlError.typeError "Cannot read property _id of null")
         else Except.ok emptyFilters) with
  | Except.error e => Except.error e
  | Except.ok f1 =>
    let f2 : Filters := if truthyStr genreArg then ⟨f1.author, genreArg⟩ else f1
    Except.ok ((db.books.filter (bookMatches f2)).map (populateBook db))

/-- `Query.me` (lines 82-88). -/
def me (currentUser : Option User) : Except GqlError User :=
  match currentUser with
  | none => Except.error (GqlError.authenticationError "not authenticated")
  | some u => Except.ok u

/-- The `Author.bookCount` field resolver (lines 181-185): the length of the
parent author's book-reference list. -/
def Author.bookCount (a : Author) : Nat :=
  a.books.length

/-- `Mutation.login` (lines 105-117): look up the user; with no user or a
password other than the hard-coded literal `"secred"`, throw
`UserInputError("wrong credentials")`; otherwise sign and return the token. -/
def login (db : DB) (username password : String) : Except GqlError Token :=
  match findOneUser db.users username with
  | none => Except.error (GqlError.userInputError "wrong credentials" none)
  | some user =>
    if password == "secred" then
      Except.ok ⟨⟨user.username, user.id⟩⟩
    else
      Except.error (GqlError.userInputError "wrong credentials" none)

/-- Server state: the store, the `PubSub` log of published `BOOK_ADDED`
payloads, and a supply of fresh object ids (every stored id is below it). -/
structure ServerState where
  db : DB
  log : List PopulatedBook
  nextId : Nat
  deriving Repr, DecidableEq

/-- The mongoose `validateSync` functions of the Book and Author models
(models/book.js, models/author.js — outside src/), kept abstract: a validator
yields `some message` exactly when in-memory validation fails. -/
structure Validators where
  validateBook : Book → Option String
  validateAuthor : Author → Option String

/-- `author.save()`: a document loaded from the store is updated in place
(matched by `_id`); a freshly constructed one is inserted. -/
def saveAuthor (authors : List Author) (a : Author) : List Author :=
  if authors.any (fun x => x.id == a.id) then
    authors.map (fun x => if x.id == a.id then a else x)
  else
    authors ++ [a]

/-- The author document `addBook` works on (lines 126-129): the stored author
of that name, or `new Author({ name: args.author, born: null })` with a fresh
id, in both cases with the new book's `_id` appended to `books`. -/
def addBookAuthor (args : AddBookArgs) (s : ServerState) : Author :=
  let a0 : Author :=
    match findOneAuthor s.db.authors args.author with
    | some a => a
    | none => ⟨args.author, s.nextId + 1, none, []⟩
  { a0 with books := a0.books ++ [s.nextId] }

/-- The `new Book({ ...args })` document with its `author` reference set to
the resolved author's `_id` (lines 124 and 130). -/
def addedBook (args : AddBookArgs) (s : ServerState) : Book :=
  ⟨args.title, args.published, (addBookAuthor args s).id, s.nextId, args.genres⟩

/-- The store after `addedBook.save(); author.save()` both succeed. -/
def addBookDB (args : AddBookArgs) (s : ServerState) : DB :=
  ⟨s.db.books ++ [addedBook args s],
   saveAuthor s.db.authors (addBookAuthor args s),
   s.db.users⟩

/-- `Mutation.addBook` (lines 118-155).  No current user: throw an
`AuthenticationError` before touching anything.  Otherwise build the book and
the modified author, collect both `validateSync` results in a list, and throw
a `UserInputError` carrying `args` with the first failure found (the
`forEach` at lines 136-143, rewrapped by the `catch` at lines 147-151);
only when both pass are the two documents saved, the populated book published
on the `BOOK_ADDED` channel and returned. -/
def addBook (V : Validators) (currentUser : Option User) (args : AddBookArgs)
    (s : ServerState) : Except GqlError PopulatedBook × ServerState :=
  match currentUser with
  | none => (Except.error (GqlError.authenticationError "not authenticated"), s)
  | some _ =>
    match [V.validateBook (addedBook args s),
           V.validateAuthor (addBookAuthor args s)].findSome? id with
    | some msg =>
      (Except.error (GqlError.userInputError msg (some (InvalidArgs.addBook args))), s)
    | none =>
      let response := populateBook (addBookDB args s) (addedBook args s)
      (Except.ok response, ⟨addBookDB args s, s.log ++ [response], s.nextId + 2⟩)

/-- `Mutation.editAuthor` (lines 156-179): require a current user, look the
author up by name, throw `UserInputError("Author doesn't exist")` when
absent, otherwise set `born` and save. -/
def editAuthor (currentUser : Option User) (args : EditAuthorArgs)
    (s : ServerState) : Except GqlError Author × ServerState :=
  match currentUser with
  | none => (Except.error (GqlError.authenticationError "not authenticated"), s)
  | some _ =>
    match findOneAuthor s.db.authors args.name with
    | none => (Except.error (GqlError.userInputError "Author doesn't exist" none), s)
    | some a =>
      let edited : Author := { a with born := some args.setBornTo }
      (Except.ok edited,
       ⟨⟨s.db.books, saveAuthor s.db.authors edited, s.db.users⟩, s.log, s.nextId⟩)

/-- `auth.toLowerCase()`. -/
def jsToLower (s : String) : String :=
  ⟨s.data.map Char.toLower⟩

/-- `s.startsWith(pre)` on the underlying character sequences. -/
def strStartsWith (s pre : String) : Bool :=
  pre.data.isPrefixOf s.data

/-- The ApolloServer `context` function (lines 210-222).  `verify` is
`jwt.verify` (external): `Except.error` models a thrown verification failure.
Result `none`: no bearer-scheme authorization header, the function returns
`undefined`.  Result `some cu`: a context object `{ currentUser: cu }`, where
the try/catch turns any verification failure into `currentUser = null`, and a
missing user (`User.findById` resolving `null`) also leaves it `null`. -/
def contextFor (db : DB) (verify : String → Except String SignedToken)
    (auth : Option String) : Option (Option User) :=
  match auth with
  | none => none
  | some a =>
    if strStartsWith (jsToLower a) "bearer " then
      some (match verify (String.drop a 7) with
            | Except.error _ => none
            | Except.ok tok => findUserById db.users tok.id)
    else none

/-- Modelled from the spec (section 4.5): a `bookAdded` subscriber registered
when `t` events had already been published receives exactly the events
published afterwards, in publish order, with no replay of earlier ones.  The
`PubSub` channel itself is library code outside src/. -/
def receivedEvents (t : Nat) (log : List PopulatedBook) : List PopulatedBook :=
  log.drop t

/-- `Author.bookCount` as observed through `allAuthors` for a given name: the
book-list length of the stored author of that name, 0 when absent. -/
def authorBookCountByName (db : DB) (name : String) : Nat :=
  match findOneAuthor db.authors name with
  | some a => a.books.length
  | none => 0

/-- Store sanity: author ids are pairwise distinct and below the fresh-id
supply (mongoose object ids are unique). -/
def WFState (s : ServerState) : Prop :=
  (s.db.authors.map Author.id).Nodup ∧ ∀ a ∈ s.db.authors, a.id < s.nextId

/-! ### Helper lemmas -/

theorem find?_append_of_none {α : Type} (p : α → Bool) (l₁ l₂ : List α)
    (h : l₁.find? p = none) : (l₁ ++ l₂).find? p = l₂.find? p := by
  induction l₁ with
  | nil => rfl
  | cons x xs ih =>
    by_cases hx : p x = true
    · rw [List.find?_cons_of_pos _ hx] at h
      exact Option.noConfusion h
    · rw [List.find?_cons_of_neg _ hx] at h
      rw [List.cons_append, List.find?_cons_of_neg _ hx]
      exact ih h

theorem find_id_after_replace (l : List Author) (a : Author)
    (h : (l.any fun x => x.id == a.id) = true) :
    (l.map fun x => if x.id == a.id then a else x).find?
      (fun x => x.id == a.id) = some a := by
  induction l with
  | nil => simp at h
  | cons x xs ih =>
    by_cases hx : (x.id == a.id) = true
    · rw [List.map_cons, if_pos hx]
      exact List.find?_cons_of_pos _ (by simp)
    · rw [List.map_cons, if_neg hx]
      have hstep : List.find? (fun y => y.id == a.id)
          (x :: (xs.map fun y => if y.id == a.id then a else y)) =
          List.find? (fun y => y.id == a.id)
            (xs.map fun y => if y.id == a.id then a else y) :=
        List.find?_cons_of_neg _ hx
      rw [hstep]
      apply ih
      simpa [hx] using h

theorem find_name_after_replace (l : List Author) (a0 a' : Author) (n : String)
    (hnd : (l.map Author.id).Nodup)
    (hfind : l.find? (fun x => x.name == n) = some a0)
    (hid : a'.id = a0.id) (hname : a'.name = a0.name) :
    (l.map fun x => if x.id == a'.id then a' else x).find?
      (fun x => x.name == n) = some a' := by
  induction l with
  | nil => exact Option.noConfusion hfind
  | cons x xs ih =>
    by_cases hx : (x.name == n) = true
    · have hstep : List.find? (fun y => y.name == n) (x :: xs) = some x :=
        List.find?_cons_of_pos _ hx
      rw [hstep] at hfind
      have hx0 : x = a0 := Option.some.inj hfind
      have hidx : a'.id = x.id := hid.trans (congrArg Author.id hx0.symm)
      have hnamex : a'.name = x.name := hname.trans (congrArg Author.name hx0.symm)
      rw [List.map_cons, if_pos (show (x.id == a'.id) = true by simp [hidx])]
      refine List.find?_cons_of_pos _ ?_
      show (a'.name == n) = true
      rw [hnamex]
      exact hx
    · have hstep : List.find? (fun y => y.name == n) (x :: xs) =
          List.find? (fun y => y.name == n) xs :=
        List.find?_cons_of_neg _ hx
      rw [hstep] at hfind
      have hmem : a0 ∈ xs := List.mem_of_find?_eq_some hfind
      have hxid : x.id ≠ a0.id := by
        rw [List.map_cons, List.nodup_cons] at hnd
        intro hcontra
        exact hnd.1 (hcontra ▸ List.mem_map_of_mem Author.id hmem)
      have hnd' : (xs.map Author.id).Nodup := by
        rw [List.map_cons, List.nodup_cons] at hnd
        exact hnd.2
      rw [List.map_cons, if_neg (show ¬ (x.id == a'.id) = true by simp [hid, hxid])]
      have hstep2 : List.find? (fun y => y.name == n)
          (x :: (xs.map fun y => if y.id == a'.id then a' else y)) =
          List.find? (fun y => y.name == n)
            (xs.map fun y => if y.id == a'.id then a' else y) :=
        List.find?_cons_of_neg _ hx
      rw [hstep2]
      exact ih hnd' hfind

theorem findAuthorById_saveAuthor (l : List Author) (a : Author) :
    findAuthorById (saveAuthor l a) a.id = some a := by
  unfold saveAuthor findAuthorById
  by_cases hany : (l.any fun x => x.id == a.id) = true
  · rw [if_pos hany]
    exact find_id_after_replace l a hany
  · rw [if_neg hany]
    have hnone : l.find? (fun x => x.id == a.id) = none := by
      rw [List.find?_eq_none]
      intro x hx hpx
      exact hany (List.any_eq_true.mpr ⟨x, hx, hpx⟩)
    rw [find?_append_of_none _ _ _ hnone]
    exact List.find?_cons_of_pos _ (by simp)

theorem findOneAuthor_saveAuthor_existing (l : List Author) (a0 a' : Author)
    (n : String) (hnd : (l.map Author.id).Nodup)
    (hfind : l.find? (fun x => x.name == n) = some a0)
    (hid : a'.id = a0.id) (hname : a'.name = a0.name) :
    findOneAuthor (saveAuthor l a') n = some a' := by
  unfold saveAuthor findOneAuthor
  have hany : (l.any fun x => x.id == a'.id) = true :=
    List.any_eq_true.mpr ⟨a0, List.mem_of_find?_eq_some hfind, by simp [hid]⟩
  rw [if_pos hany]
  exact find_name_after_replace l a0 a' n hnd hfind hid hname

theorem findOneAuthor_saveAuthor_new (l : List Author) (a' : Author) (n : String)
    (hfind : l.find? (fun x => x.name == n) = none)
    (hfresh : ∀ x ∈ l, x.id ≠ a'.id) (hname : a'.name = n) :
    findOneAuthor (saveAuthor l a') n = some a' := by
  unfold saveAuthor findOneAuthor
  have hany : ¬ (l.any fun x => x.id == a'.id) = true := by
    intro hcontra
    rcases List.any_eq_true.mp hcontra with ⟨x, hx, hpx⟩
    exact hfresh x hx (by simpa using hpx)
  rw [if_neg hany]
  rw [find?_append_of_none _ _ _ hfind]
  exact List.find?_cons_of_pos _ (by simp [hname])

/-- What a successful `addBook` returned and did to the state. -/
theorem addBook_ok_elim (V : Validators) (u : User) (args : AddBookArgs)
    (s : ServerState) (pb : PopulatedBook) (s' : ServerState)
    (h : addBook V (some u) args s = (Except.ok pb, s')) :
    pb = populateBook (addBookDB args s) (addedBook args s) ∧
    s' = ⟨addBookDB args s, s.log ++ [pb], s.nextId + 2⟩ := by
  unfold addBook at h
  cases hfind : [V.validateBook (addedBook args s),
                 V.validateAuthor (addBookAuthor args s)].findSome? id with
  | some msg =>
    rw [hfind] at h
    simp at h
  | none =>
    rw [hfind] at h
    simp only [Prod.mk.injEq, Except.ok.injEq] at h
    obtain ⟨hpb, hs⟩ := h
    subst hpb
    exact ⟨rfl, hs.symm⟩

/-- The book `addBook` saves populates to the author record it saved. -/
theorem populate_addedBook (args : AddBookArgs) (s : ServerState) :
    (populateBook (addBookDB args s) (addedBook args s)).author =
      some (addBookAuthor args s) := by
  show findAuthorById (saveAuthor s.db.authors (addBookAuthor args s))
      (addedBook args s).author = _
  have harg : (addedBook args s).author = (addBookAuthor args s).id := rfl
  rw [harg]
  exact findAuthorById_saveAuthor _ _

theorem addBookAuthor_name (args : AddBookArgs) (s : ServerState) :
    (addBookAuthor args s).name = args.author := by
  unfold addBookAuthor
  cases hfind : findOneAuthor s.db.authors args.author with
  | none => rfl
  | some a0 =>
    have hp := List.find?_some hfind
    simpa using hp

theorem allBooks_nofilter (db : DB) :
    allBooks db none none = Except.ok (db.books.map (populateBook db)) := by
  have hfil : db.books.filter (bookMatches emptyFilters) = db.books :=
    List.filter_eq_self.mpr (fun b _ => rfl)
  simp [allBooks, truthyStr, hfil]

/-- `Author.bookCount` at the added book's author name grows by exactly one
(from 0 when the author is created by the call). -/
theorem authorBookCountByName_addBookDB (args : AddBookArgs) (s : ServerState)
    (hwf : WFState s) :
    authorBookCountByName (addBookDB args s) args.author =
      authorBookCountByName s.db args.author + 1 := by
  obtain ⟨hnd, hlt⟩ := hwf
  unfold authorBookCountByName
  cases hfind : findOneAuthor s.db.authors args.author with
  | some a0 =>
    have ha : addBookAuthor args s = { a0 with books := a0.books ++ [s.nextId] } := by
      simp only [addBookAuthor, hfind]
    have h2 : findOneAuthor (addBookDB args s).authors args.author =
        some (addBookAuthor args s) := by
      apply findOneAuthor_saveAuthor_existing s.db.authors a0 _ _ hnd hfind
      · rw [ha]
      · rw [ha]
    rw [h2]
    simp [ha]
  | none =>
    have hid : (addBookAuthor args s).id = s.nextId + 1 := by
      simp only [addBookAuthor, hfind]
    have h2 : findOneAuthor (addBookDB args s).authors args.author =
        some (addBookAuthor args s) := by
      apply findOneAuthor_saveAuthor_new s.db.authors _ _ hfind _
        (addBookAuthor_name args s)
      intro x hx
      have hxlt := hlt x hx
      rw [hid]
      omega
    rw [h2]
    have hbooks : (addBookAuthor args s).books = [s.nextId] := by
      simp only [addBookAuthor, hfind]
      rfl
    simp [hbooks]

/-! ### Claim theorems -/

/-- C1: the claim says `bookCount` and `authorCount` return the total number
of stored records as an integer; the resolvers instead return the unapplied
`countDocuments` function reference and never a numeric value, while invoking
it would have produced the count.  (The schema itself declares both fields
`Int!`, so the code contradicts its own contract.) -/
theorem bookCount_returns_function_reference (db : DB) :
    bookCount db = JsValue.fn "countDocuments" ∧
    authorCount db = JsValue.fn "countDocuments" ∧
    (∀ n : Nat, bookCount db ≠ JsValue.num n) ∧
    (∀ n : Nat, authorCount db ≠ JsValue.num n) ∧
    booksCountInvoked db = JsValue.num db.books.length ∧
    authorsCountInvoked db = JsValue.num db.authors.length := by
  refine ⟨rfl, rfl, ?_, ?_, rfl, rfl⟩ <;> intro n h <;> exact JsValue.noConfusion h

/-- Witness for C1 at the empty store. -/
theorem bookCount_returns_function_reference_witness :
    bookCount ⟨[], [], []⟩ = JsValue.fn "countDocuments" ∧
    bookCount ⟨[], [], []⟩ ≠ JsValue.num 0 ∧
    authorCount ⟨[], [], []⟩ ≠ JsValue.num 0 :=
  ⟨(bookCount_returns_function_reference ⟨[], [], []⟩).1,
   (bookCount_returns_function_reference ⟨[], [], []⟩).2.2.1 0,
   (bookCount_returns_function_reference ⟨[], [], []⟩).2.2.2.1 0⟩

/-- C2: `addBook` with no current user in the request context throws an
`AuthenticationError` and leaves the whole server state untouched: no Book is
created and no Author is created or modified. -/
theorem addBook_unauthenticated_no_writes (V : Validators) (args : AddBookArgs)
    (s : ServerState) :
    addBook V none args s =
      (Except.error (GqlError.authenticationError "not authenticated"), s) := by
  rfl

/-- Witness for C2 at a concrete call. -/
theorem addBook_unauthenticated_no_writes_witness :
    addBook ⟨fun _ => none, fun _ => none⟩ none ⟨"Dune", "Frank", 1965, ["sci-fi"]⟩
        ⟨⟨[], [], []⟩, [], 0⟩ =
      (Except.error (GqlError.authenticationError "not authenticated"),
       ⟨⟨[], [], []⟩, [], 0⟩) :=
  addBook_unauthenticated_no_writes ⟨fun _ => none, fun _ => none⟩
    ⟨"Dune", "Frank", 1965, ["sci-fi"]⟩ ⟨⟨[], [], []⟩, [], 0⟩

/-- C3: an authenticated `addBook` validates the new Book and the modified
Author in memory before persisting either: whenever the first failure found
(the Book's validation result, else the Author's) is `some msg`, the mutation
throws a `UserInputError` carrying `msg` and the offending arguments, and the
state — both entities included — is unchanged. -/
theorem addBook_validates_before_saving (V : Validators) (u : User)
    (args : AddBookArgs) (s : ServerState) (msg : String)
    (h : V.validateBook (addedBook args s) = some msg ∨
         (V.validateBook (addedBook args s) = none ∧
          V.validateAuthor (addBookAuthor args s) = some msg)) :
    addBook V (some u) args s =
      (Except.error (GqlError.userInputError msg (some (InvalidArgs.addBook args))), s) := by
  rcases h with h | ⟨h1, h2⟩
  · simp [addBook, h]
  · simp [addBook, h1, h2]

/-- Witness for C3 at a concrete input: a Book validator that rejects. -/
theorem addBook_validates_before_saving_witness :
    addBook ⟨fun _ => some "title required", fun _ => none⟩
        (some ⟨"tester", "sci-fi", 0⟩) ⟨"", "Ada", 1999, []⟩
        ⟨⟨[], [], []⟩, [], 5⟩ =
      (Except.error (GqlError.userInputError "title required"
        (some (InvalidArgs.addBook ⟨"", "Ada", 1999, []⟩))), ⟨⟨[], [], []⟩, [], 5⟩) :=
  addBook_validates_before_saving _ _ _ _ _ (Or.inl rfl)

/-- C5: `login` throws `UserInputError("wrong credentials")` and issues no
token when the username is unknown or the password differs from the
hard-coded literal `"secred"`; otherwise it returns a signed token embedding
that user's username and id. -/
theorem login_credentials_spec (db : DB) (username password : String) :
    ((findOneUser db.users username = none ∨ password ≠ "secred") →
      login db username password =
        Except.error (GqlError.userInputError "wrong credentials" none)) ∧
    (∀ u : User, findOneUser db.users username = some u → password = "secred" →
      login db username password = Except.ok ⟨⟨u.username, u.id⟩⟩) := by
  constructor
  · intro h
    unfold login
    cases hfind : findOneUser db.users username with
    | none => simp
    | some u =>
      rcases h with h | h
      · rw [hfind] at h
        exact Option.noConfusion h
      · simp [h]
  · intro u hu hp
    simp [login, hu, hp]

/-- Witness for C5: both the rejection and the success branch at a concrete
store holding one user. -/
theorem login_credentials_spec_witness :
    login ⟨[], [], [⟨"test", "refactoring", 3⟩]⟩ "test" "wrong" =
      Except.error (GqlError.userInputError "wrong credentials" none) ∧
    login ⟨[], [], [⟨"test", "refactoring", 3⟩]⟩ "test" "secred" =
      Except.ok ⟨⟨"test", 3⟩⟩ :=
  ⟨(login_credentials_spec ⟨[], [], [⟨"test", "refactoring", 3⟩]⟩ "test" "wrong").1
      (Or.inr (by decide)),
   (login_credentials_spec ⟨[], [], [⟨"test", "refactoring", 3⟩]⟩ "test" "secred").2
      ⟨"test", "refactoring", 3⟩ rfl rfl⟩

/-- C6: an authenticated `editAuthor` on a name with no stored Author throws
`UserInputError("Author doesn't exist")` and changes nothing persisted. -/
theorem editAuthor_nonexistent_no_writes (u : User) (args : EditAuthorArgs)
    (s : ServerState) (h : findOneAuthor s.db.authors args.name = none) :
    editAuthor (some u) args s =
      (Except.error (GqlError.userInputError "Author doesn't exist" none), s) := by
  simp [editAuthor, h]

/-- Witness for C6: an empty author collection. -/
theorem editAuthor_nonexistent_no_writes_witness :
    editAuthor (some ⟨"tester", "sci-fi", 0⟩) ⟨"Nobody", 1900⟩ ⟨⟨[], [], []⟩, [], 1⟩ =
      (Except.error (GqlError.userInputError "Author doesn't exist" none),
       ⟨⟨[], [], []⟩, [], 1⟩) :=
  editAuthor_nonexistent_no_writes _ _ _ rfl

/-- C4 counterexample: for the genre string `""` the claim fails — JavaScript
truthiness makes `if (args.genre)` skip the filter, so `allBooks(genre: "")`
returns a stored book whose genre list does not contain `""`. -/
theorem allBooks_genre_counterexample :
    allBooks ⟨[⟨"Refactoring", 1999, 1, 10, ["refactoring"]⟩], [], []⟩ none (some "") =
      Except.ok [⟨"Refactoring", 1999, none, 10, ["refactoring"]⟩] ∧
    "" ∉ ["refactoring"] :=
  ⟨rfl, by decide⟩

/-- C4 amended: for every NON-empty genre string G, `allBooks(genre: G)`
returns exactly the stored Books whose genre list contains G (each returned
book contains G and arises from a stored book by population, and every stored
book containing G is returned).  The store's `$in` matching is genre-list
membership per the spec. -/
theorem allBooks_genre_filter_exact (db : DB) (G : String) (hG : G ≠ "")
    (l : List PopulatedBook) (h : allBooks db none (some G) = Except.ok l) :
    (∀ pb ∈ l, G ∈ pb.genres ∧ ∃ b ∈ db.books, populateBook db b = pb) ∧
    (∀ b ∈ db.books, G ∈ b.genres → populateBook db b ∈ l) := by
  have hl : l = (db.books.filter (fun b => b.genres.contains G)).map (populateBook db) := by
    simp [allBooks, truthyStr, hG, emptyFilters, bookMatches] at h
    exact h.symm
  subst hl
  constructor
  · intro pb hpb
    rcases List.mem_map.mp hpb with ⟨b, hb, rfl⟩
    rcases List.mem_filter.mp hb with ⟨hbooks, hcontains⟩
    refine ⟨?_, b, hbooks, rfl⟩
    simpa [populateBook] using hcontains
  · intro b hb hGb
    exact List.mem_map_of_mem _ (List.mem_filter.mpr ⟨hb, by simpa using hGb⟩)

/-- Witness for the amended C4 at a concrete two-book store. -/
theorem allBooks_genre_filter_exact_witness :
    (∀ pb ∈ [(⟨"Dune", 1965, none, 11, ["sci-fi"]⟩ : PopulatedBook)],
       "sci-fi" ∈ pb.genres ∧
       ∃ b ∈ [(⟨"Dune", 1965, 7, 11, ["sci-fi"]⟩ : Book),
              ⟨"Refactoring", 1999, 8, 12, ["refactoring"]⟩],
         populateBook ⟨[⟨"Dune", 1965, 7, 11, ["sci-fi"]⟩,
                        ⟨"Refactoring", 1999, 8, 12, ["refactoring"]⟩], [], []⟩ b = pb) ∧
    (∀ b ∈ [(⟨"Dune", 1965, 7, 11, ["sci-fi"]⟩ : Book),
            ⟨"Refactoring", 1999, 8, 12, ["refactoring"]⟩],
       "sci-fi" ∈ b.genres →
       populateBook ⟨[⟨"Dune", 1965, 7, 11, ["sci-fi"]⟩,
                      ⟨"Refactoring", 1999, 8, 12, ["refactoring"]⟩], [], []⟩ b ∈
         [(⟨"Dune", 1965, none, 11, ["sci-fi"]⟩ : PopulatedBook)]) :=
  allBooks_genre_filter_exact
    ⟨[⟨"Dune", 1965, 7, 11, ["sci-fi"]⟩, ⟨"Refactoring", 1999, 8, 12, ["refactoring"]⟩],
     [], []⟩
    "sci-fi" (by decide) _ rfl

/-- C10 counterexample: with the author argument `""` — which names no stored
Author — `allBooks` does not fail: `if (args.author)` is falsy on the empty
string, so no lookup and no null dereference happen and the unfiltered list
is returned. -/
theorem allBooks_missing_author_counterexample :
    findOneAuthor ([] : List Author) "" = none ∧
    allBooks ⟨[⟨"Dune", 1965, 7, 11, ["sci-fi"]⟩], [], []⟩ (some "") none =
      Except.ok [⟨"Dune", 1965, none, 11, ["sci-fi"]⟩] :=
  ⟨rfl, rfl⟩

/-- C10 amended: for every `allBooks` call whose author argument is a
NON-empty string naming no stored Author, the resolver dereferences the null
`findOne` result (reading `_id` of a missing record) and the query fails with
that TypeError, rather than returning an empty or unfiltered list. -/
theorem allBooks_missing_author_fails (db : DB) (a : String) (g : Option String)
    (ha : a ≠ "") (hfind : findOneAuthor db.authors a = none) :
    allBooks db (some a) g =
      Except.error (GqlError.typeError "Cannot read property _id of null") := by
  simp [allBooks, truthyStr, ha, hfind]

/-- Witness for the amended C10: an unknown author name over a store with one
book and no authors. -/
theorem allBooks_missing_author_fails_witness :
    allBooks ⟨[⟨"Dune", 1965, 7, 11, ["sci-fi"]⟩], [], []⟩ (some "Frank Herbert") none =
      Except.error (GqlError.typeError "Cannot read property _id of null") :=
  allBooks_missing_author_fails _ "Frank Herbert" none (by decide) rfl

/-- C7: after every successful `addBook`, `allBooks` (no filters) includes
the returned Book with its author reference resolved to the full stored
Author record — whose name is the requested author name — and
`Author.bookCount` for that name is exactly one greater than before the call
(0 before when the call created the author). -/
theorem addBook_success_updates (V : Validators) (u : User) (args : AddBookArgs)
    (s : ServerState) (pb : PopulatedBook) (s' : ServerState)
    (hwf : WFState s) (h : addBook V (some u) args s = (Except.ok pb, s')) :
    (∃ l, allBooks s'.db none none = Except.ok l ∧ pb ∈ l) ∧
    pb.author = some (addBookAuthor args s) ∧
    (addBookAuthor args s).name = args.author ∧
    authorBookCountByName s'.db args.author =
      authorBookCountByName s.db args.author + 1 := by
  obtain ⟨hpb, hs⟩ := addBook_ok_elim V u args s pb s' h
  subst hs
  refine ⟨⟨_, allBooks_nofilter _, ?_⟩, ?_, addBookAuthor_name args s, ?_⟩
  · rw [hpb]
    exact List.mem_map_of_mem _ (by simp [addBookDB])
  · rw [hpb]
    exact populate_addedBook args s
  · exact authorBookCountByName_addBookDB args s hwf

/-- Witness for C7: adding one book by a new author to an empty store. -/
theorem addBook_success_updates_witness :
    (∃ l,
      allBooks ⟨[⟨"Dune", 1965, 1, 0, ["sci-fi"]⟩], [⟨"Frank", 1, none, [0]⟩], []⟩
          none none = Except.ok l ∧
      (⟨"Dune", 1965, some ⟨"Frank", 1, none, [0]⟩, 0, ["sci-fi"]⟩ : PopulatedBook) ∈ l) ∧
    (⟨"Dune", 1965, some ⟨"Frank", 1, none, [0]⟩, 0, ["sci-fi"]⟩ : PopulatedBook).author =
      some (addBookAuthor ⟨"Dune", "Frank", 1965, ["sci-fi"]⟩ ⟨⟨[], [], []⟩, [], 0⟩) ∧
    (addBookAuthor ⟨"Dune", "Frank", 1965, ["sci-fi"]⟩ ⟨⟨[], [], []⟩, [], 0⟩).name =
      "Frank" ∧
    authorBookCountByName
        ⟨[⟨"Dune", 1965, 1, 0, ["sci-fi"]⟩], [⟨"Frank", 1, none, [0]⟩], []⟩ "Frank" =
      authorBookCountByName ⟨[], [], []⟩ "Frank" + 1 :=
  addBook_success_updates ⟨fun _ => none, fun _ => none⟩ ⟨"tester", "sci-fi", 9⟩
    ⟨"Dune", "Frank", 1965, ["sci-fi"]⟩ ⟨⟨[], [], []⟩, [], 0⟩
    ⟨"Dune", 1965, some ⟨"Frank", 1, none, [0]⟩, 0, ["sci-fi"]⟩
    ⟨⟨[⟨"Dune", 1965, 1, 0, ["sci-fi"]⟩], [⟨"Frank", 1, none, [0]⟩], []⟩,
     [⟨"Dune", 1965, some ⟨"Frank", 1, none, [0]⟩, 0, ["sci-fi"]⟩], 2⟩
    ⟨by simp, by simp⟩ rfl

/-- C8: every successful `addBook` publishes exactly one `BOOK_ADDED` event,
carrying the fully populated returned Book (author resolved): a subscriber
registered at any earlier point `t` of the event log receives its previous
stream followed by exactly that one new event — so events arrive in
publication order — and a subscriber registering after the call receives
nothing retroactively. -/
theorem addBook_publishes_exactly_once (V : Validators) (u : User)
    (args : AddBookArgs) (s : ServerState) (pb : PopulatedBook) (s' : ServerState)
    (h : addBook V (some u) args s = (Except.ok pb, s')) :
    s'.log = s.log ++ [pb] ∧
    (∀ t ≤ s.log.length, receivedEvents t s'.log = receivedEvents t s.log ++ [pb]) ∧
    receivedEvents s'.log.length s'.log = [] ∧
    pb.author = some (addBookAuthor args s) := by
  obtain ⟨hpb, hs⟩ := addBook_ok_elim V u args s pb s' h
  subst hs
  refine ⟨rfl, ?_, ?_, ?_⟩
  · intro t ht
    show (s.log ++ [pb]).drop t = s.log.drop t ++ [pb]
    exact List.drop_append_of_le_length ht
  · show (s.log ++ [pb]).drop (s.log ++ [pb]).length = []
    exact List.drop_length _
  · rw [hpb]
    exact populate_addedBook args s

/-- Witness for C8: the same one-book run, checked against the event log. -/
theorem addBook_publishes_exactly_once_witness :
    (⟨⟨[⟨"Dune", 1965, 1, 0, ["sci-fi"]⟩], [⟨"Frank", 1, none, [0]⟩], []⟩,
      [⟨"Dune", 1965, some ⟨"Frank", 1, none, [0]⟩, 0, ["sci-fi"]⟩], 2⟩ :
        ServerState).log =
      ([] : List PopulatedBook) ++
        [⟨"Dune", 1965, some ⟨"Frank", 1, none, [0]⟩, 0, ["sci-fi"]⟩] ∧
    (∀ t ≤ ([] : List PopulatedBook).length,
      receivedEvents t
          (⟨⟨[⟨"Dune", 1965, 1, 0, ["sci-fi"]⟩], [⟨"Frank", 1, none, [0]⟩], []⟩,
            [⟨"Dune", 1965, some ⟨"Frank", 1, none, [0]⟩, 0, ["sci-fi"]⟩], 2⟩ :
              ServerState).log =
        receivedEvents t ([] : List PopulatedBook) ++
          [⟨"Dune", 1965, some ⟨"Frank", 1, none, [0]⟩, 0, ["sci-fi"]⟩]) ∧
    receivedEvents
        (⟨⟨[⟨"Dune", 1965, 1, 0, ["sci-fi"]⟩], [⟨"Frank", 1, none, [0]⟩], []⟩,
          [⟨"Dune", 1965, some ⟨"Frank", 1, none, [0]⟩, 0, ["sci-fi"]⟩], 2⟩ :
            ServerState).log.length
        (⟨⟨[⟨"Dune", 1965, 1, 0, ["sci-fi"]⟩], [⟨"Frank", 1, none, [0]⟩], []⟩,
          [⟨"Dune", 1965, some ⟨"Frank", 1, none, [0]⟩, 0, ["sci-fi"]⟩], 2⟩ :
            ServerState).log = [] ∧
    (⟨"Dune", 1965, some ⟨"Frank", 1, none, [0]⟩, 0, ["sci-fi"]⟩ :
        PopulatedBook).author =
      some (addBookAuthor ⟨"Dune", "Frank", 1965, ["sci-fi"]⟩ ⟨⟨[], [], []⟩, [], 0⟩) :=
  addBook_publishes_exactly_once ⟨fun _ => none, fun _ => none⟩
    ⟨"tester", "sci-fi", 9⟩ ⟨"Dune", "Frank", 1965, ["sci-fi"]⟩
    ⟨⟨[], [], []⟩, [], 0⟩
    ⟨"Dune", 1965, some ⟨"Frank", 1, none, [0]⟩, 0, ["sci-fi"]⟩
    ⟨⟨[⟨"Dune", 1965, 1, 0, ["sci-fi"]⟩], [⟨"Frank", 1, none, [0]⟩], []⟩,
     [⟨"Dune", 1965, some ⟨"Frank", 1, none, [0]⟩, 0, ["sci-fi"]⟩], 2⟩
    rfl

/-- C9: with a bearer-scheme authorization header present, a token that fails
verification — or a verified token whose user is missing — never fails the
request: the context function silently yields a context whose current user is
null, and the authentication error is raised only later, by a resolver that
requires a current user (here `me`). -/
theorem context_auth_failure_silent (db : DB)
    (verify : String → Except String SignedToken) (a : String)
    (hb : strStartsWith (jsToLower a) "bearer " = true) :
    ((∀ e, verify (String.drop a 7) = Except.error e →
        contextFor db verify (some a) = some none) ∧
     (∀ tok, verify (String.drop a 7) = Except.ok tok →
        findUserById db.users tok.id = none →
        contextFor db verify (some a) = some none)) ∧
    me none = Except.error (GqlError.authenticationError "not authenticated") := by
  refine ⟨⟨?_, ?_⟩, rfl⟩
  · intro e he
    simp [contextFor, hb, he]
  · intro tok htok hu
    simp [contextFor, hb, htok, hu]

/-- Witness for C9: a bearer header with a token rejected by verification. -/
theorem context_auth_failure_silent_witness :
    contextFor ⟨[], [], []⟩ (fun _ => Except.error "invalid signature")
        (some "Bearer bogus") = some none ∧
    me none = Except.error (GqlError.authenticationError "not authenticated") :=
  ⟨(context_auth_failure_silent ⟨[], [], []⟩
      (fun _ => Except.error "invalid signature") "Bearer bogus" (by decide)).1.1
      "invalid signature" rfl,
   (context_auth_failure_silent ⟨[], [], []⟩
      (fun _ => Except.error "invalid signature") "Bearer bogus" (by decide)).2⟩

end GraphqlLibrary
